import Mathlib

/-!
Verification of `scripts/multiboot/config.py` (DualBootPatcher).

The module loads one INI-style file (`defaults.conf`) into a process-wide
`configparser.ConfigParser` object named `config` and exposes the accessors
`get`, `has`, `get_device`, `get_selinux`, `get_ramdisk_offset` and
`get_partition`.

Embedding decisions:
* The script's shebang is `#!/usr/bin/env python3`, so `sys.hexversion >=
  0x03000000` holds and the module sets `py3 = True`; we embed the Python 3
  branch of each accessor (`config[section][option]`, `option in
  config[section]`).
* The loaded parser state is modelled by `config.ConfigDocument`: the pairs of
  the special `[DEFAULT]` section plus an association list of named sections,
  each an association list of option/value pairs.  Option names are stored as
  the parser keeps them after `optionxform` (the accessors only ever pass
  lower-case literals), and values are taken as interpolation-free strings
  (no `%` placeholders), which is the fragment of `configparser` the file
  format described in the repository uses.
* Python 3 `configparser` semantics, checked against the library:
  `config[section]` raises `KeyError(section)` when `section` is missing and
  is not the always-present `"DEFAULT"` section; `option in config[section]`
  consults the section's own pairs and then the `[DEFAULT]` pairs;
  `config[section][option]` raises `KeyError(option)` when the option is
  visible in neither, and otherwise returns the stored value, the section's
  own pair taking precedence over `[DEFAULT]`.  `KeyError` is a subclass of
  `LookupError`, so "raises a LookupError" is modelled by the `Except.error`
  result carrying a `PyError.keyError`.
* Python string truthiness (`if value and ...`) is non-emptiness.
-/

namespace config

/-- One section's option/value pairs, in file order. -/
abbrev OptionMap : Type := List (String × String)

/-- First-match lookup in an association list with string keys. -/
def assocLookup {α : Type} : List (String × α) → String → Option α
  | [], _ => none
  | (k, v) :: rest, key => if k = key then some v else assocLookup rest key

/-- The in-memory state of the module-level `config` parser object after
`config.read(...)`: the `[DEFAULT]` section's pairs and the named sections. -/
structure ConfigDocument : Type where
  defaults : OptionMap
  sections : List (String × OptionMap)

/-- Python errors the accessors can raise.  `KeyError` is a subclass of
`LookupError`; the payload is the missing key as reported by `configparser`. -/
inductive PyError : Type
  | keyError (key : String)
deriving DecidableEq, Repr

/-- `config[sec]`: the mapping proxy for `sec`.  The `"DEFAULT"` section always
exists; any other name must be a parsed section, else `KeyError(sec)`. -/
def sectionLookup (c : ConfigDocument) (sec : String) : Option OptionMap :=
  if sec = "DEFAULT" then some c.defaults else assocLookup c.sections sec

/-- Option visibility inside an existing section: the section's own pairs
first, then the `[DEFAULT]` pairs (`configparser`'s chained lookup). -/
def visibleLookup (c : ConfigDocument) (m : OptionMap) (opt : String) : Option String :=
  match assocLookup m opt with
  | some v => some v
  | none => assocLookup c.defaults opt

/-- `def get(section, option): return config[section][option]` (the `py3`
branch): `KeyError(sec)` when the section is missing, `KeyError(opt)` when the
option is visible neither in the section nor in `[DEFAULT]`, and the stored
string otherwise. -/
def get (c : ConfigDocument) (sec opt : String) : Except PyError String :=
  match sectionLookup c sec with
  | none => Except.error (PyError.keyError sec)
  | some m =>
    match visibleLookup c m opt with
    | none => Except.error (PyError.keyError opt)
    | some v => Except.ok v

/-- `def has(section, option): return option in config[section]` (the `py3`
branch): `config[section]` raises `KeyError(sec)` when the section is missing;
otherwise membership is tested against the section's and `[DEFAULT]`'s pairs. -/
def has (c : ConfigDocument) (sec opt : String) : Except PyError Bool :=
  match sectionLookup c sec with
  | none => Except.error (PyError.keyError sec)
  | some m => Except.ok (visibleLookup c m opt).isSome

/-- `def get_device(): return get('Defaults', 'device')`. -/
def get_device (c : ConfigDocument) : Except PyError String :=
  get c "Defaults" "device"

/-- `def get_selinux()`: `has(get_device(), 'selinux')`, then
`value = get(get_device(), 'selinux')`; `if value and value == 'unchanged'`
(Python truthiness: `value` non-empty) yields `None`, else `value`;
`None` when the key is absent.  `get_device()` is evaluated again for the
inner `get`, exactly as in the source. -/
def get_selinux (c : ConfigDocument) : Except PyError (Option String) := do
  let h ← has c (← get_device c) "selinux"
  if h then
    let value ← get c (← get_device c) "selinux"
    if value ≠ "" ∧ value = "unchanged" then
      pure none
    else
      pure (some value)
  else
    pure none

/-- `def get_ramdisk_offset()`: the stored value verbatim when
`ramdisk_offset` is visible in the device section, `None` otherwise. -/
def get_ramdisk_offset (c : ConfigDocument) : Except PyError (Option String) := do
  let h ← has c (← get_device c) "ramdisk_offset"
  if h then
    let v ← get c (← get_device c) "ramdisk_offset"
    pure (some v)
  else
    pure none

/-- `def get_partition(partition)`: the stored value of
`'partition.' + partition` verbatim when visible in the device section,
`None` otherwise. -/
def get_partition (c : ConfigDocument) (partition : String) : Except PyError (Option String) := do
  let h ← has c (← get_device c) ("partition." ++ partition)
  if h then
    let v ← get c (← get_device c) ("partition." ++ partition)
    pure (some v)
  else
    pure none

/-- A document following the recognised structural convention of the spec's
scenario section: `[Defaults] device=deviceA`, `[deviceA]` with a `selinux`
value, a sentinel-valued `ramdisk_offset` and one partition key. -/
def sampleDoc : ConfigDocument :=
  { defaults := []
    sections :=
      [("Defaults", [("device", "deviceA")]),
       ("deviceA",
         [("selinux", "permissive"),
          ("ramdisk_offset", "unchanged"),
          ("partition.boot", "/dev/sda1")])] }

/-- A document whose device's `selinux` value is the empty string. -/
def emptySelinuxDoc : ConfigDocument :=
  { defaults := []
    sections := [("Defaults", [("device", "dev")]), ("dev", [("selinux", "")])] }

/-- A document whose `[Defaults]` section lacks the `device` key. -/
def noDeviceDoc : ConfigDocument :=
  { defaults := []
    sections := [("Defaults", [])] }

/-!
State-passing form of the accessors.  The module's `config` parser object is
process-wide mutable state; each accessor below returns its result together
with the state of that object after the call, threading the state through
every sub-call in the order the source performs them.  Each primitive
`configparser` operation the source performs (`config[section]`,
`option in config[section]`, `config[section][option]`) is a read, so the
primitives return the state they were given.
-/

/-- `get(section, option)` against an explicit `config` state. -/
def getS (sec opt : String) (c : ConfigDocument) : Except PyError String × ConfigDocument :=
  (get c sec opt, c)

/-- `has(section, option)` against an explicit `config` state. -/
def hasS (sec opt : String) (c : ConfigDocument) : Except PyError Bool × ConfigDocument :=
  (has c sec opt, c)

/-- `get_device()` against an explicit `config` state. -/
def get_deviceS (c : ConfigDocument) : Except PyError String × ConfigDocument :=
  getS "Defaults" "device" c

/-- `get_selinux()` against an explicit `config` state, threading the state
through `get_device()`, `has`, the second `get_device()` and `get` in source
order. -/
def get_selinuxS (c : ConfigDocument) : Except PyError (Option String) × ConfigDocument :=
  match get_deviceS c with
  | (Except.error e, c1) => (Except.error e, c1)
  | (Except.ok d, c1) =>
    match hasS d "selinux" c1 with
    | (Except.error e, c2) => (Except.error e, c2)
    | (Except.ok false, c2) => (Except.ok none, c2)
    | (Except.ok true, c2) =>
      match get_deviceS c2 with
      | (Except.error e, c3) => (Except.error e, c3)
      | (Except.ok d2, c3) =>
        match getS d2 "selinux" c3 with
        | (Except.error e, c4) => (Except.error e, c4)
        | (Except.ok value, c4) =>
          if value ≠ "" ∧ value = "unchanged" then (Except.ok none, c4)
          else (Except.ok (some value), c4)

/-- `get_ramdisk_offset()` against an explicit `config` state. -/
def get_ramdisk_offsetS (c : ConfigDocument) :
    Except PyError (Option String) × ConfigDocument :=
  match get_deviceS c with
  | (Except.error e, c1) => (Except.error e, c1)
  | (Except.ok d, c1) =>
    match hasS d "ramdisk_offset" c1 with
    | (Except.error e, c2) => (Except.error e, c2)
    | (Except.ok false, c2) => (Except.ok none, c2)
    | (Except.ok true, c2) =>
      match get_deviceS c2 with
      | (Except.error e, c3) => (Except.error e, c3)
      | (Except.ok d2, c3) =>
        match getS d2 "ramdisk_offset" c3 with
        | (Except.error e, c4) => (Except.error e, c4)
        | (Except.ok v, c4) => (Except.ok (some v), c4)

/-- `get_partition(partition)` against an explicit `config` state. -/
def get_partitionS (partition : String) (c : ConfigDocument) :
    Except PyError (Option String) × ConfigDocument :=
  match get_deviceS c with
  | (Except.error e, c1) => (Except.error e, c1)
  | (Except.ok d, c1) =>
    match hasS d ("partition." ++ partition) c1 with
    | (Except.error e, c2) => (Except.error e, c2)
    | (Except.ok false, c2) => (Except.ok none, c2)
    | (Except.ok true, c2) =>
      match get_deviceS c2 with
      | (Except.error e, c3) => (Except.error e, c3)
      | (Except.ok d2, c3) =>
        match getS d2 ("partition." ++ partition) c3 with
        | (Except.error e, c4) => (Except.error e, c4)
        | (Except.ok v, c4) => (Except.ok (some v), c4)

/-- Results a public accessor can produce, as Python values: a string, a
boolean, or `None`. -/
inductive PyValue : Type
  | str (s : String)
  | bool (b : Bool)
  | pyNone
deriving DecidableEq, Repr

/-- Conversion of an `Option String` result (`None` / a string) to `PyValue`. -/
def optToPyValue : Option String → PyValue
  | none => PyValue.pyNone
  | some s => PyValue.str s

/-- One call to a public accessor, with its arguments. -/
inductive AccessorCall : Type
  | getCall (sec opt : String)
  | hasCall (sec opt : String)
  | deviceCall
  | selinuxCall
  | ramdiskOffsetCall
  | partitionCall (p : String)
deriving DecidableEq, Repr

/-- Running one accessor call against the module state: the Python value (or
raised error) it produces, and the state afterwards. -/
def runCall : AccessorCall → ConfigDocument → Except PyError PyValue × ConfigDocument
  | AccessorCall.getCall s o, c =>
    let r := getS s o c
    (r.1.map PyValue.str, r.2)
  | AccessorCall.hasCall s o, c =>
    let r := hasS s o c
    (r.1.map PyValue.bool, r.2)
  | AccessorCall.deviceCall, c =>
    let r := get_deviceS c
    (r.1.map PyValue.str, r.2)
  | AccessorCall.selinuxCall, c =>
    let r := get_selinuxS c
    (r.1.map optToPyValue, r.2)
  | AccessorCall.ramdiskOffsetCall, c =>
    let r := get_ramdisk_offsetS c
    (r.1.map optToPyValue, r.2)
  | AccessorCall.partitionCall p, c =>
    let r := get_partitionS p c
    (r.1.map optToPyValue, r.2)

/-! Read-only lemmas: every accessor leaves the `config` state unchanged. -/

lemma getS_snd (s o : String) (c : ConfigDocument) : (getS s o c).2 = c := rfl

lemma hasS_snd (s o : String) (c : ConfigDocument) : (hasS s o c).2 = c := rfl

lemma get_deviceS_snd (c : ConfigDocument) : (get_deviceS c).2 = c := rfl

lemma get_selinuxS_snd (c : ConfigDocument) : (get_selinuxS c).2 = c := by
  unfold get_selinuxS get_deviceS getS hasS
  cases hg : get c "Defaults" "device" with
  | error e => simp [hg]
  | ok d =>
    simp only [hg]
    cases hh : has c d "selinux" with
    | error e => simp [hh]
    | ok b =>
      cases b with
      | false => simp [hh]
      | true =>
        simp only [hh, hg]
        cases hv : get c d "selinux" with
        | error e => simp [hv]
        | ok v => by_cases hu : v ≠ "" ∧ v = "unchanged" <;> simp [hv, hu]

lemma get_ramdisk_offsetS_snd (c : ConfigDocument) : (get_ramdisk_offsetS c).2 = c := by
  unfold get_ramdisk_offsetS get_deviceS getS hasS
  cases hg : get c "Defaults" "device" with
  | error e => simp [hg]
  | ok d =>
    simp only [hg]
    cases hh : has c d "ramdisk_offset" with
    | error e => simp [hh]
    | ok b =>
      cases b with
      | false => simp [hh]
      | true =>
        simp only [hh, hg]
        cases hv : get c d "ramdisk_offset" with
        | error e => simp [hv]
        | ok v => simp [hv]

lemma get_partitionS_snd (p : String) (c : ConfigDocument) : (get_partitionS p c).2 = c := by
  unfold get_partitionS get_deviceS getS hasS
  cases hg : get c "Defaults" "device" with
  | error e => simp [hg]
  | ok d =>
    simp only [hg]
    cases hh : has c d ("partition." ++ p) with
    | error e => simp [hh]
    | ok b =>
      cases b with
      | false => simp [hh]
      | true =>
        simp only [hh, hg]
        cases hv : get c d ("partition." ++ p) with
        | error e => simp [hv]
        | ok v => simp [hv]

lemma runCall_snd (a : AccessorCall) (c : ConfigDocument) : (runCall a c).2 = c := by
  cases a with
  | getCall s o => exact getS_snd s o c
  | hasCall s o => exact hasS_snd s o c
  | deviceCall => exact get_deviceS_snd c
  | selinuxCall => exact get_selinuxS_snd c
  | ramdiskOffsetCall => exact get_ramdisk_offsetS_snd c
  | partitionCall p => exact get_partitionS_snd p c

/-! Consistency: the state-passing accessors compute the same results as the
direct ones. -/

lemma get_selinuxS_fst (c : ConfigDocument) : (get_selinuxS c).1 = get_selinux c := by
  unfold get_selinuxS get_deviceS getS hasS get_selinux get_device
  cases hg : get c "Defaults" "device" with
  | error e => simp [hg, Bind.bind, Except.bind]
  | ok d =>
    simp only [hg, Bind.bind, Except.bind]
    cases hh : has c d "selinux" with
    | error e => simp [hh]
    | ok b =>
      cases b with
      | false => simp [hh, Pure.pure, Except.pure]
      | true =>
        simp only [hh, hg]
        cases hv : get c d "selinux" with
        | error e => simp [hv]
        | ok v =>
          by_cases hu : v ≠ "" ∧ v = "unchanged" <;> simp [hv, hu, Pure.pure, Except.pure]

lemma get_ramdisk_offsetS_fst (c : ConfigDocument) :
    (get_ramdisk_offsetS c).1 = get_ramdisk_offset c := by
  unfold get_ramdisk_offsetS get_deviceS getS hasS get_ramdisk_offset get_device
  cases hg : get c "Defaults" "device" with
  | error e => simp [hg, Bind.bind, Except.bind]
  | ok d =>
    simp only [hg, Bind.bind, Except.bind]
    cases hh : has c d "ramdisk_offset" with
    | error e => simp [hh]
    | ok b =>
      cases b with
      | false => simp [hh, Pure.pure, Except.pure]
      | true =>
        simp only [hh, hg]
        cases hv : get c d "ramdisk_offset" with
        | error e => simp [hv]
        | ok v => simp [hv, Pure.pure, Except.pure]

lemma get_partitionS_fst (p : String) (c : ConfigDocument) :
    (get_partitionS p c).1 = get_partition c p := by
  unfold get_partitionS get_deviceS getS hasS get_partition get_device
  cases hg : get c "Defaults" "device" with
  | error e => simp [hg, Bind.bind, Except.bind]
  | ok d =>
    simp only [hg, Bind.bind, Except.bind]
    cases hh : has c d ("partition." ++ p) with
    | error e => simp [hh]
    | ok b =>
      cases b with
      | false => simp [hh, Pure.pure, Except.pure]
      | true =>
        simp only [hh, hg]
        cases hv : get c d ("partition." ++ p) with
        | error e => simp [hv]
        | ok v => simp [hv, Pure.pure, Except.pure]

example : get sampleDoc "Defaults" "device" = Except.ok "deviceA" := rfl
example : get_device sampleDoc = Except.ok "deviceA" := rfl
example : get_selinux sampleDoc = Except.ok (some "permissive") := rfl
example : get_ramdisk_offset sampleDoc = Except.ok (some "unchanged") := rfl
example : get_partition sampleDoc "boot" = Except.ok (some "/dev/sda1") := rfl
example : get_partition sampleDoc "recovery" = Except.ok none := rfl
example : get_selinux emptySelinuxDoc = Except.ok (some "") := rfl
example : get_device noDeviceDoc = Except.error (PyError.keyError "device") := rfl
example : has sampleDoc "NoSuchSection" "x" = Except.error (PyError.keyError "NoSuchSection") :=
  rfl

/-! Evaluation lemmas for `get` and `has`, by the case split of their
definitions. -/

lemma get_error_section {c : ConfigDocument} {s : String} (o : String)
    (hm : sectionLookup c s = none) :
    get c s o = Except.error (PyError.keyError s) := by
  simp [get, hm]

lemma get_error_option {c : ConfigDocument} {s o : String} {m : OptionMap}
    (hm : sectionLookup c s = some m) (hv : visibleLookup c m o = none) :
    get c s o = Except.error (PyError.keyError o) := by
  simp [get, hm, hv]

lemma get_ok {c : ConfigDocument} {s o : String} {m : OptionMap} {v : String}
    (hm : sectionLookup c s = some m) (hv : visibleLookup c m o = some v) :
    get c s o = Except.ok v := by
  simp [get, hm, hv]

lemma has_error {c : ConfigDocument} {s : String} (o : String)
    (hm : sectionLookup c s = none) :
    has c s o = Except.error (PyError.keyError s) := by
  simp [has, hm]

lemma has_ok {c : ConfigDocument} {s o : String} {m : OptionMap}
    (hm : sectionLookup c s = some m) :
    has c s o = Except.ok (visibleLookup c m o).isSome := by
  simp [has, hm]

/-! Evaluation lemmas for the device-scoped accessors, under a resolved
device whose section exists. -/

lemma get_selinux_eval {c : ConfigDocument} {d : String} {m : OptionMap}
    (hd : get_device c = Except.ok d) (hm : sectionLookup c d = some m) :
    get_selinux c =
      match visibleLookup c m "selinux" with
      | none => Except.ok none
      | some v => if v ≠ "" ∧ v = "unchanged" then Except.ok none else Except.ok (some v) := by
  cases hv : visibleLookup c m "selinux" with
  | none =>
    simp [get_selinux, hd, Bind.bind, Except.bind, has, hm, hv, Pure.pure, Except.pure]
  | some v =>
    by_cases hu : v ≠ "" ∧ v = "unchanged" <;>
      simp [get_selinux, hd, Bind.bind, Except.bind, has, hm, hv, get, hu,
        Pure.pure, Except.pure]

lemma get_ramdisk_offset_eval {c : ConfigDocument} {d : String} {m : OptionMap}
    (hd : get_device c = Except.ok d) (hm : sectionLookup c d = some m) :
    get_ramdisk_offset c =
      match visibleLookup c m "ramdisk_offset" with
      | none => Except.ok none
      | some v => Except.ok (some v) := by
  cases hv : visibleLookup c m "ramdisk_offset" with
  | none =>
    simp [get_ramdisk_offset, hd, Bind.bind, Except.bind, has, hm, hv, Pure.pure, Except.pure]
  | some v =>
    simp [get_ramdisk_offset, hd, Bind.bind, Except.bind, has, hm, hv, get,
      Pure.pure, Except.pure]

lemma get_partition_eval {c : ConfigDocument} {d : String} {m : OptionMap} (p : String)
    (hd : get_device c = Except.ok d) (hm : sectionLookup c d = some m) :
    get_partition c p =
      match visibleLookup c m ("partition." ++ p) with
      | none => Except.ok none
      | some v => Except.ok (some v) := by
  cases hv : visibleLookup c m ("partition." ++ p) with
  | none =>
    simp [get_partition, hd, Bind.bind, Except.bind, has, hm, hv, Pure.pure, Except.pure]
  | some v =>
    simp [get_partition, hd, Bind.bind, Except.bind, has, hm, hv, get,
      Pure.pure, Except.pure]

/-! The claims. -/

/-- Claim C1, counterexample: in a loaded document whose device section stores
`selinux` as the empty string, `get_selinux()` returns the empty string, not
`None`: `if value and value == 'unchanged'` is false for an empty `value`, so
the `else` branch returns `value` itself.  The claim's empty-string case is
therefore false on the code. -/
theorem c1_empty_selinux_counterexample :
    get_selinux emptySelinuxDoc = Except.ok (some "") ∧
    get_selinux emptySelinuxDoc ≠ Except.ok (none : Option String) := by
  refine ⟨rfl, fun h => ?_⟩
  have h2 : (some "" : Option String) = none := Except.ok.inj h
  exact Option.noConfusion h2

/-- Claim C1 (amended): with `d = get_device()` resolving to an existing
section: `get_selinux()` is `None` when the section lacks `selinux` and when
the stored value equals `"unchanged"`; otherwise it returns the stored value
exactly — including the empty string, which is returned as `""`, not
collapsed to `None`. -/
theorem c1_selinux_characterization (c : ConfigDocument) (d : String) (m : OptionMap)
    (hd : get_device c = Except.ok d) (hm : sectionLookup c d = some m) :
    (visibleLookup c m "selinux" = none → get_selinux c = Except.ok none) ∧
    (∀ v, visibleLookup c m "selinux" = some v →
      get_selinux c = Except.ok (if v = "unchanged" then none else some v)) := by
  constructor
  · intro hv
    rw [get_selinux_eval hd hm, hv]
  · intro v hv
    rw [get_selinux_eval hd hm, hv]
    by_cases h : v = "unchanged"
    · have hne : v ≠ "" := by rw [h]; decide
      simp [h, hne]
    · simp [h]

/-- Claim C1 witness: on `sampleDoc`, where `selinux = permissive`,
the amended characterization yields `get_selinux() = "permissive"`. -/
theorem c1_witness :
    get_selinux sampleDoc = Except.ok (some "permissive") := by
  have h := (c1_selinux_characterization sampleDoc "deviceA"
    [("selinux", "permissive"), ("ramdisk_offset", "unchanged"), ("partition.boot", "/dev/sda1")]
    rfl rfl).2 "permissive" rfl
  simpa using h

/-- Claim C2, counterexample: when the section does not exist, the `py3`
branch `option in config[section]` raises `KeyError(section)` — `has` does
not return `false`.  The claim's missing-section case is therefore false on
the code. -/
theorem c2_missing_section_counterexample :
    has sampleDoc "NoSuchSection" "x" = Except.error (PyError.keyError "NoSuchSection") ∧
    has sampleDoc "NoSuchSection" "x" ≠ Except.ok false := by
  refine ⟨rfl, fun h => ?_⟩
  have h2 : has sampleDoc "NoSuchSection" "x" = Except.error (PyError.keyError "NoSuchSection") :=
    rfl
  rw [h2] at h
  exact Except.noConfusion h

/-- Claim C2 (amended): `has(section, option)` returns `false` (rather than
raising) when the option is absent from an existing section, but raises a
`KeyError` (a `LookupError`) when the section itself does not exist in the
loaded document (the special `"DEFAULT"` section always existing). -/
theorem c2_has_behavior (c : ConfigDocument) (s o : String) :
    (∀ m, sectionLookup c s = some m → has c s o = Except.ok (visibleLookup c m o).isSome) ∧
    (sectionLookup c s = none → has c s o = Except.error (PyError.keyError s)) := by
  constructor
  · intro m hm
    exact has_ok hm
  · intro hm
    exact has_error o hm

/-- Claim C2 witness: on `sampleDoc`, `has` reports `false` for a missing
option of an existing section, and raises `KeyError` for a missing section. -/
theorem c2_witness :
    has sampleDoc "deviceA" "missing" = Except.ok false ∧
    has sampleDoc "NoSection" "x" = Except.error (PyError.keyError "NoSection") := by
  constructor
  · have h := (c2_has_behavior sampleDoc "deviceA" "missing").1
      [("selinux", "permissive"), ("ramdisk_offset", "unchanged"),
        ("partition.boot", "/dev/sda1")] rfl
    simpa using h
  · exact (c2_has_behavior sampleDoc "NoSection" "x").2 rfl

/-- Claim C3: `get(section, option)` raises a `LookupError` (here a
`KeyError`) exactly in the two missing cases — section not in the document,
or option visible neither in the section nor in `[DEFAULT]` — and in the
remaining case returns the stored value, never a substituted default. -/
theorem c3_get_error_characterization (c : ConfigDocument) (s o : String) :
    (sectionLookup c s = none → get c s o = Except.error (PyError.keyError s)) ∧
    (∀ m, sectionLookup c s = some m → visibleLookup c m o = none →
      get c s o = Except.error (PyError.keyError o)) ∧
    (∀ m v, sectionLookup c s = some m → visibleLookup c m o = some v →
      get c s o = Except.ok v) := by
  refine ⟨fun hm => get_error_section o hm, fun m hm hv => get_error_option hm hv,
    fun m v hm hv => get_ok hm hv⟩

/-- Claim C3 witness: on `sampleDoc`, `get` succeeds on a present pair and
raises `KeyError` for a missing option and for a missing section. -/
theorem c3_witness :
    get sampleDoc "Defaults" "device" = Except.ok "deviceA" ∧
    get sampleDoc "deviceA" "missing" = Except.error (PyError.keyError "missing") ∧
    get sampleDoc "NoSection" "x" = Except.error (PyError.keyError "NoSection") := by
  refine ⟨?_, ?_, ?_⟩
  · exact (c3_get_error_characterization sampleDoc "Defaults" "device").2.2
      [("device", "deviceA")] "deviceA" rfl rfl
  · exact (c3_get_error_characterization sampleDoc "deviceA" "missing").2.1
      [("selinux", "permissive"), ("ramdisk_offset", "unchanged"),
        ("partition.boot", "/dev/sda1")] rfl rfl
  · exact (c3_get_error_characterization sampleDoc "NoSection" "x").1 rfl

/-- Claim C4: for a pair present in the loaded document — the section exists
and stores the option among its own pairs — `get` returns exactly the stored
string, unmodified. -/
theorem c4_get_exact (c : ConfigDocument) (s o : String) (m : OptionMap) (v : String)
    (hm : sectionLookup c s = some m) (hv : assocLookup m o = some v) :
    get c s o = Except.ok v := by
  have hvis : visibleLookup c m o = some v := by
    simp [visibleLookup, hv]
  exact get_ok hm hvis

/-- Claim C4 witness: the stored string `permissive` comes back verbatim. -/
theorem c4_witness : get sampleDoc "deviceA" "selinux" = Except.ok "permissive" :=
  c4_get_exact sampleDoc "deviceA" "selinux"
    [("selinux", "permissive"), ("ramdisk_offset", "unchanged"), ("partition.boot", "/dev/sda1")]
    "permissive" rfl rfl

/-- Claim C5: `get_device()` is extensionally equal to
`get("Defaults", "device")` on every loaded document: the same returned
string, or the same raised `LookupError`. -/
theorem c5_get_device_refines_get (c : ConfigDocument) :
    get_device c = get c "Defaults" "device" := rfl

/-- Claim C6: with `d = get_device()` resolving to an existing section,
`get_ramdisk_offset()` is `None` exactly when `ramdisk_offset` is not visible
in the section, and otherwise returns the stored value verbatim; likewise
`get_partition(name)` with key `"partition." ++ name`.  In particular the
`∀ v` clauses include `v = "unchanged"` and `v = ""`: neither accessor
collapses those values to `None`. -/
theorem c6_no_sentinel_collapse (c : ConfigDocument) (d : String) (m : OptionMap)
    (name : String)
    (hd : get_device c = Except.ok d) (hm : sectionLookup c d = some m) :
    (get_ramdisk_offset c = Except.ok none ↔ visibleLookup c m "ramdisk_offset" = none) ∧
    (∀ v, visibleLookup c m "ramdisk_offset" = some v →
      get_ramdisk_offset c = Except.ok (some v)) ∧
    (get_partition c name = Except.ok none ↔
      visibleLookup c m ("partition." ++ name) = none) ∧
    (∀ v, visibleLookup c m ("partition." ++ name) = some v →
      get_partition c name = Except.ok (some v)) := by
  refine ⟨?_, ?_, ?_, ?_⟩
  · rw [get_ramdisk_offset_eval hd hm]
    cases hv : visibleLookup c m "ramdisk_offset" <;> simp
  · intro v hv
    rw [get_ramdisk_offset_eval hd hm, hv]
  · rw [get_partition_eval name hd hm]
    cases hv : visibleLookup c m ("partition." ++ name) <;> simp
  · intro v hv
    rw [get_partition_eval name hd hm, hv]

/-- Claim C6 witness: on `sampleDoc`, `ramdisk_offset = unchanged` comes back
as the string `"unchanged"` (not collapsed to `None`), `partition.boot` comes
back verbatim, and the absent `partition.recovery` is `None`. -/
theorem c6_witness :
    get_ramdisk_offset sampleDoc = Except.ok (some "unchanged") ∧
    get_partition sampleDoc "boot" = Except.ok (some "/dev/sda1") ∧
    get_partition sampleDoc "recovery" = Except.ok none := by
  refine ⟨?_, ?_, ?_⟩
  · exact (c6_no_sentinel_collapse sampleDoc "deviceA"
      [("selinux", "permissive"), ("ramdisk_offset", "unchanged"),
        ("partition.boot", "/dev/sda1")] "boot" rfl rfl).2.1 "unchanged" rfl
  · exact (c6_no_sentinel_collapse sampleDoc "deviceA"
      [("selinux", "permissive"), ("ramdisk_offset", "unchanged"),
        ("partition.boot", "/dev/sda1")] "boot" rfl rfl).2.2.2 "/dev/sda1" rfl
  · exact (c6_no_sentinel_collapse sampleDoc "deviceA"
      [("selinux", "permissive"), ("ramdisk_offset", "unchanged"),
        ("partition.boot", "/dev/sda1")] "recovery" rfl rfl).2.2.1.mpr rfl

/-- Claim C7: a missing `device` key (or missing `[Defaults]` section) is not
detected before the accessors run: each device-scoped accessor evaluates
`get_device()` first and propagates exactly its `LookupError` when it is
called.  (Loading itself is total in the model: `ConfigDocument` places no
constraint on the `[Defaults]` section, so such documents load.) -/
theorem c7_deferred_device_error (c : ConfigDocument) (e : PyError)
    (hd : get_device c = Except.error e) :
    get_selinux c = Except.error e ∧
    get_ramdisk_offset c = Except.error e ∧
    ∀ p, get_partition c p = Except.error e := by
  refine ⟨?_, ?_, fun p => ?_⟩
  · simp [get_selinux, hd, Bind.bind, Except.bind]
  · simp [get_ramdisk_offset, hd, Bind.bind, Except.bind]
  · simp [get_partition, hd, Bind.bind, Except.bind]

/-- Claim C7 witness: `noDeviceDoc` loads (it is a well-formed document) and
every device-scoped accessor raises `KeyError('device')` when called. -/
theorem c7_witness :
    get_selinux noDeviceDoc = Except.error (PyError.keyError "device") ∧
    get_ramdisk_offset noDeviceDoc = Except.error (PyError.keyError "device") ∧
    get_partition noDeviceDoc "boot" = Except.error (PyError.keyError "device") := by
  have h := c7_deferred_device_error noDeviceDoc (PyError.keyError "device") rfl
  exact ⟨h.1, h.2.1, h.2.2 "boot"⟩

/-- Claim C8: every public accessor leaves the loaded configuration document
unchanged — in the state-passing form, the `config` state after any call
equals the state before it. -/
theorem c8_accessors_preserve_state (c : ConfigDocument) (s o p : String) :
    (getS s o c).2 = c ∧ (hasS s o c).2 = c ∧ (get_deviceS c).2 = c ∧
    (get_selinuxS c).2 = c ∧ (get_ramdisk_offsetS c).2 = c ∧ (get_partitionS p c).2 = c :=
  ⟨getS_snd s o c, hasS_snd s o c, get_deviceS_snd c, get_selinuxS_snd c,
    get_ramdisk_offsetS_snd c, get_partitionS_snd p c⟩

/-- Claim C9: `has` and `get` agree on every pair — `has = true` means `get`
succeeds with the stored value, `has = false` means `get` raises
`KeyError(option)`. -/
theorem c9_has_get_agreement (c : ConfigDocument) (s o : String) :
    (has c s o = Except.ok true → ∃ v, get c s o = Except.ok v ∧
      ∀ m, sectionLookup c s = some m → visibleLookup c m o = some v) ∧
    (has c s o = Except.ok false → get c s o = Except.error (PyError.keyError o)) := by
  cases hm : sectionLookup c s with
  | none =>
    constructor
    · intro h
      rw [has_error o hm] at h
      exact Except.noConfusion h
    · intro h
      rw [has_error o hm] at h
      exact Except.noConfusion h
  | some m =>
    cases hv : visibleLookup c m o with
    | none =>
      constructor
      · intro h
        rw [has_ok hm, hv] at h
        have h2 : (none : Option String).isSome = true := Except.ok.inj h
        exact Bool.noConfusion h2
      · intro _
        exact get_error_option hm hv
    | some w =>
      constructor
      · intro _
        refine ⟨w, get_ok hm hv, fun m2 hm2 => ?_⟩
        have h2 : m = m2 := Option.some.inj hm2
        rw [← h2]
        exact hv
      · intro h
        rw [has_ok hm, hv] at h
        have h2 : (some w).isSome = false := Except.ok.inj h
        exact Bool.noConfusion h2

/-- Claim C9 witness: on `sampleDoc`, `has = false` on a missing option makes
`get` raise, and `has = true` on `selinux` makes `get` return the stored
value. -/
theorem c9_witness :
    get sampleDoc "deviceA" "nope" = Except.error (PyError.keyError "nope") ∧
    get sampleDoc "deviceA" "selinux" = Except.ok "permissive" := by
  constructor
  · exact (c9_has_get_agreement sampleDoc "deviceA" "nope").2 rfl
  · rcases (c9_has_get_agreement sampleDoc "deviceA" "selinux").1 rfl with ⟨v, hv, hall⟩
    have h2 := hall
      [("selinux", "permissive"), ("ramdisk_offset", "unchanged"),
        ("partition.boot", "/dev/sda1")] rfl
    have h3 : (some "permissive" : Option String) = some v := by
      rw [← h2]
      rfl
    have h4 : "permissive" = v := Option.some.inj h3
    rw [hv, ← h4]

/-- Claim C10: for a fixed loaded document every public accessor is
deterministic and insensitive to call order: the outcome (value, absence or
error, together with the state) of any accessor call after any other
accessor call equals its outcome on the untouched document, and no call
changes the document. -/
theorem c10_deterministic_accessors (a b : AccessorCall) (c : ConfigDocument) :
    runCall a ((runCall b c).2) = runCall a c ∧ (runCall a c).2 = c := by
  constructor
  · rw [runCall_snd b c]
  · exact runCall_snd a c

end config
